import Mathlib

/-!
A shallow embedding of the resume PDF renderer (`lib/pdf-generator.ts`,
given in the repository as `src/unnamed/part_011`) together with the
data model of `lib/schema.ts`.  PDFKit is modelled by an explicit
document state (`Doc`): a vertical cursor, the current font attributes,
and the ordered trace of emitted drawing primitives (`Op`).

Units: every length is an integer number of hundredths of a PDF point
(centipoints), so the source's fractional constants are exact integers
here: the A4 page is 59528 x 84189, the 50pt margins are 5000, the
100pt page-break threshold is 10000.  The argument of `moveDown` is an
integer number of hundredths of a line, so `moveDown(0.3)` of the
source is `moveDown 30` here.

The geometry of flowed text (the height of a wrapped text block, the
current line height used by `moveDown`) is determined by the PDF
engine; it is abstracted into an `Engine` of height oracles, so the
theorems below are universally quantified over those heights.
-/

namespace ResumeGen

/-- JS truthiness of a string-or-undefined value: `undefined` and the
empty string are falsy, every other string is truthy. -/
def jsTruthy : Option String → Bool
  | none => false
  | some s => !s.isEmpty

/-- JS `String.prototype.trim()`: strips leading and trailing
whitespace, modelled by structural recursion on the character list. -/
def jsTrim (s : String) : String :=
  String.mk
    (((s.data.dropWhile Char.isWhitespace).reverse.dropWhile
        Char.isWhitespace).reverse)

/-! ## Data model (`lib/schema.ts`) -/

/-- `linkSchema.type`: enum {git, portfolio, linkedin, other}. -/
inductive LinkType
  | git
  | portfolio
  | linkedin
  | other
deriving DecidableEq, Repr

/-- The JSON string value carried by a `LinkType` at runtime. -/
def LinkType.toJs : LinkType → String
  | .git => "git"
  | .portfolio => "portfolio"
  | .linkedin => "linkedin"
  | .other => "other"

/-- `linkSchema`: {type, url, otherLabel?}. -/
structure Link where
  type : LinkType
  url : String
  otherLabel : Option String := none
deriving DecidableEq, Repr

/-- Project sub-entry of an experience entry: {name, detail?}. -/
structure Project where
  name : String
  detail : Option String := none
deriving DecidableEq, Repr

/-- `experienceSchema`: company, position, startMonth, startYear,
endMonth?, endYear?, isCurrent, description, projects.
Note: the current schema has NO `duration` field. -/
structure Experience where
  company : String
  position : String
  startMonth : String
  startYear : String
  endMonth : Option String := none
  endYear : Option String := none
  isCurrent : Bool
  description : String
  projects : List Project
deriving DecidableEq, Repr

/-- `educationSchema`: institution, degree, fieldOfStudy?, duration,
description?. -/
structure Education where
  institution : String
  degree : String
  fieldOfStudy : Option String := none
  duration : String
  description : Option String := none
deriving DecidableEq, Repr

/-- `languageSchema.level`: 5-value proficiency enum. -/
inductive LangLevel
  | native
  | fluent
  | advanced
  | intermediate
  | basic
deriving DecidableEq, Repr

/-- `languageSchema`: {language, level}. -/
structure Language where
  language : String
  level : LangLevel
deriving DecidableEq, Repr

/-- Skill entry: `{ value: string }`. -/
structure Skill where
  value : String
deriving DecidableEq, Repr

/-- `certificateSchema`: {name, issuer, year?}. -/
structure Certificate where
  name : String
  issuer : String
  year : Option String := none
deriving DecidableEq, Repr

/-- `resumeSchema` / `ResumeData` of `lib/schema.ts`. -/
structure ResumeData where
  firstName : String
  lastName : String
  nickname : Option String := none
  email : String
  phone : String
  photo : Option String := none
  links : List Link
  summary : String
  experience : List Experience
  education : List Education
  languages : List Language
  skills : List Skill
  certificates : List Certificate
deriving DecidableEq, Repr

/-! ## Layout and style constants (`lib/pdf-generator.ts`, lines 4-39)

All lengths in centipoints (hundredths of a point). -/

/-- Shape of the `MARGINS` constant object. -/
structure MarginSpec where
  top : ℤ
  bottom : ℤ
  left : ℤ
  right : ℤ
deriving DecidableEq, Repr

/-- `MARGINS`: fixed 50pt margins on all sides. -/
def MARGINS : MarginSpec :=
  { top := 5000, bottom := 5000, left := 5000, right := 5000 }

/-- A4 width: 595.28pt. -/
def PAGE_WIDTH : ℤ := 59528

/-- A4 height: 841.89pt. -/
def PAGE_HEIGHT : ℤ := 84189

/-- Horizontal space available to flowed text. -/
def CONTENT_WIDTH : ℤ := PAGE_WIDTH - MARGINS.left - MARGINS.right

/-- `PHOTO_SIZE`: the source sets the constant to `200` (20000
centipoints) while its own trailing comment reads "110pt square". -/
def PHOTO_SIZE : ℤ := 20000

/-- Gap between photo and text: 12pt. -/
def PHOTO_GAP : ℤ := 1200

/-- Shape of the `COLORS` constant object. -/
structure ColorSpec where
  BLACK : String
  DARK_GRAY : String
  LIGHT_GRAY : String
  BLUE : String
deriving DecidableEq, Repr

/-- `COLORS` of the source. -/
def COLORS : ColorSpec :=
  { BLACK := "#000000"
    DARK_GRAY := "#333333"
    LIGHT_GRAY := "#CCCCCC"
    BLUE := "#0066CC" }

/-- Shape of the `FONT_SIZES` constant object (font sizes in points,
pure data that never enters length arithmetic). -/
structure FontSizeSpec where
  NAME : ℤ
  CONTACT : ℤ
  SECTION_HEADER : ℤ
  COMPANY : ℤ
  POSITION : ℤ
  SUMMARY : ℤ
  DESCRIPTION : ℤ
  SKILLS : ℤ
  CERTIFICATES : ℤ
deriving DecidableEq, Repr

/-- `FONT_SIZES` of the source. -/
def FONT_SIZES : FontSizeSpec :=
  { NAME := 22
    CONTACT := 10
    SECTION_HEADER := 14
    COMPANY := 12
    POSITION := 11
    SUMMARY := 11
    DESCRIPTION := 10
    SKILLS := 11
    CERTIFICATES := 11 }

/-! ## The PDFKit document model -/

/-- Horizontal alignment option of a pdfkit text call. -/
inductive TextAlign
  | left
  | right
deriving DecidableEq, Repr

/-- The options object passed to a pdfkit `text` call, restricted to
the option keys the source actually uses.  Lengths in centipoints. -/
structure TextOpts where
  width : Option ℤ := none
  align : TextAlign := .left
  indent : Option ℤ := none
  link : Option String := none
  underline : Option Bool := none
  continued : Option Bool := none
deriving DecidableEq, Repr

/-- One emitted drawing primitive.  A `text` op records the payload as
it was passed (`none` models the JS value `undefined`), the explicit
coordinates when the source passes them, and the options object.
`line` records the divider drawn by the
`strokeColor/lineWidth/moveTo/lineTo/stroke` chain, `down` records a
`moveDown` call with its argument in hundredths of a line, `page` an
`addPage`. -/
inductive Op
  | text (s : Option String) (x : Option ℤ) (yPos : Option ℤ) (opts : TextOpts)
  | image (x : ℤ) (yPos : ℤ) (w : ℤ) (h : ℤ)
  | line (x1 : ℤ) (y1 : ℤ) (x2 : ℤ) (y2 : ℤ)
  | down (n : ℤ)
  | page
deriving DecidableEq, Repr

/-- A value thrown by JS code: either an `Error` object (carrying a
message) or any non-error value. -/
inductive JSVal
  | errorVal (msg : String)
  | nonError (tag : String)
deriving DecidableEq, Repr

/-- An error-shaped value (a JS `Error`): what the promise returned by
`generateResumePDF` rejects with. -/
structure JSError where
  msg : String
deriving DecidableEq, Repr

/-- The engine-determined quantities of a render: `textHeight k` is
the height (centipoints) of the k-th flowed text block; `lineHeight k`
is the height (centipoints) of one hundredth of a line at the k-th
`moveDown` call, so that `moveDown n` advances the cursor by
`n * lineHeight k`; `imageOk p` says whether placing the image decoded
from photo payload `p` succeeds (pdfkit throws on undecodable image
bytes, and `Buffer.from`/`split` throw on a malformed data URI);
`fault` optionally injects a throw from engine construction or from
any write primitive of the pipeline (the situation handled by the
`catch` block of `generateResumePDF`). -/
structure Engine where
  textHeight : ℕ → ℤ
  lineHeight : ℕ → ℤ
  imageOk : String → Bool
  fault : Option JSVal := none

/-- The pdfkit document state: vertical cursor (centipoints), current
font attributes, the trace of emitted ops, and counters indexing into
the engine's height oracles. -/
structure Doc where
  y : ℤ
  font : String
  fontSize : ℤ
  fillColor : String
  ops : List Op
  nText : ℕ
  nMove : ℕ
deriving DecidableEq, Repr

/-- `doc.font(f)`. -/
def Doc.setFont (d : Doc) (f : String) : Doc := { d with font := f }

/-- `doc.fontSize(s)`. -/
def Doc.setSize (d : Doc) (s : ℤ) : Doc := { d with fontSize := s }

/-- `doc.fillColor(c)`. -/
def Doc.setFill (d : Doc) (c : String) : Doc := { d with fillColor := c }

/-- `doc.text(s, x?, y?, opts)`: emits the text op and advances the
cursor below the rendered block (from the explicitly passed y when
present, else from the current cursor). -/
def Doc.text (d : Doc) (E : Engine) (s : Option String) (x : Option ℤ)
    (yPos : Option ℤ) (opts : TextOpts) : Doc :=
  let base := yPos.getD d.y
  { d with
    y := base + E.textHeight d.nText
    nText := d.nText + 1
    ops := d.ops ++ [Op.text s x yPos opts] }

/-- `doc.moveDown(n/100)`: advances the cursor by n hundredths of the
current line height. -/
def Doc.moveDown (d : Doc) (E : Engine) (n : ℤ) : Doc :=
  { d with
    y := d.y + n * E.lineHeight d.nMove
    nMove := d.nMove + 1
    ops := d.ops ++ [Op.down n] }

/-- `doc.addPage()`: appends a blank page and resets the cursor to the
top margin. -/
def Doc.addPage (d : Doc) : Doc :=
  { d with y := MARGINS.top, ops := d.ops ++ [Op.page] }

/-- `doc.image(buffer, x, y, { fit: [w, h], ... })`: places an image;
with explicit coordinates the cursor does not move. -/
def Doc.image (d : Doc) (x yPos w h : ℤ) : Doc :=
  { d with ops := d.ops ++ [Op.image x yPos w h] }

/-- The `strokeColor(...).lineWidth(1).moveTo(x1,y).lineTo(x2,y).stroke()`
chain drawing a divider line. -/
def Doc.strokeLine (d : Doc) (x1 y1 x2 y2 : ℤ) : Doc :=
  { d with ops := d.ops ++ [Op.line x1 y1 x2 y2] }

/-! ## Helpers of the source (`capitalizeFirst`, `checkPageBreak`,
`addSectionHeader`) -/

/-- `capitalizeFirst` (source lines 487-490): capitalizes the first
character of a string; an empty string is returned unchanged. -/
def capitalizeFirst (s : String) : String :=
  match s.data with
  | [] => s
  | c :: cs => String.mk (c.toUpper :: cs)

/-- `checkPageBreak` (source lines 476-482): adds a new page when the
remaining space below the cursor is strictly less than 100pt. -/
def checkPageBreak (d : Doc) : Doc :=
  if PAGE_HEIGHT - MARGINS.bottom - d.y < 10000 then d.addPage else d

/-- `addSectionHeader` (source lines 449-471): bold section title,
divider line across the content width at the current cursor, fixed
spacing after it.  Performs no page-break check itself. -/
def addSectionHeader (E : Engine) (title : String) (d : Doc) : Doc :=
  let d := (((d.setFont "Helvetica-Bold").setSize
      FONT_SIZES.SECTION_HEADER).setFill COLORS.BLACK).text E (some title)
      none none { width := some CONTENT_WIDTH, align := .left }
  let d := d.moveDown E 30
  let lineY := d.y
  let d := d.strokeLine MARGINS.left lineY (PAGE_WIDTH - MARGINS.right) lineY
  d.moveDown E 50

/-! ## Header section (source lines 86-166) -/

/-- The `textWidth` binding of `generateHeader`: reduced width when a
photo is present (`hasPhoto = !!data.photo`). -/
def headerTextWidth (data : ResumeData) : ℤ :=
  if jsTruthy data.photo then CONTENT_WIDTH - PHOTO_SIZE - PHOTO_GAP
  else CONTENT_WIDTH

/-- The photo block of `generateHeader` (source lines 93-107): strip
the data-URI prefix, decode the base64 body, place the image fitted
into a PHOTO_SIZE square at the top-right corner; any throw from the
decode or placement is caught and ignored (`E.imageOk` decides whether
the attempt succeeds). -/
def tryPlacePhoto (E : Engine) (data : ResumeData) (d : Doc) : Doc :=
  if jsTruthy data.photo then
    match data.photo with
    | some p =>
        if E.imageOk p then
          d.image (PAGE_WIDTH - MARGINS.right - PHOTO_SIZE) MARGINS.top
            PHOTO_SIZE PHOTO_SIZE
        else d
    | none => d
  else d

/-- One iteration of the links loop (source lines 140-154): the link
line is rendered as `capitalizeFirst(link.type) + ": " + link.url`,
with small spacing after every link except the last. -/
def linkStep (E : Engine) (textWidth : ℤ) (total : ℕ) (d : Doc)
    (il : ℕ × Link) : Doc :=
  let linkText := capitalizeFirst il.2.type.toJs ++ ": " ++ il.2.url
  let d := (d.setFill COLORS.BLUE).text E (some linkText) (some MARGINS.left)
      (some d.y)
      { width := some textWidth, align := .left, link := some il.2.url,
        underline := some false }
  if il.1 < total - 1 then d.moveDown E 20 else d

/-- The links block of `generateHeader` (source lines 137-155). -/
def linksBlock (E : Engine) (data : ResumeData) (textWidth : ℤ)
    (d : Doc) : Doc :=
  if data.links.isEmpty then d
  else (data.links.enum).foldl (linkStep E textWidth data.links.length)
    (d.moveDown E 30)

/-- The body of `generateHeader` up to and including the links block
(source lines 86-155): photo attempt, full name (with optional
nickname in parentheses), contact line, links. -/
def headerContent (E : Engine) (data : ResumeData) (d : Doc) : Doc :=
  let textWidth := headerTextWidth data
  let d := tryPlacePhoto E data d
  let fullName :=
    if jsTruthy data.nickname then
      data.firstName ++ " " ++ data.lastName ++ " (" ++
        data.nickname.getD "" ++ ")"
    else data.firstName ++ " " ++ data.lastName
  let d := (((d.setFont "Helvetica-Bold").setSize FONT_SIZES.NAME).setFill
      COLORS.BLACK).text E (some fullName) (some MARGINS.left)
      (some MARGINS.top) { width := some textWidth, align := .left }
  let d := d.moveDown E 50
  let contactInfo := data.email ++ " | " ++ data.phone
  let d := (((d.setFont "Helvetica").setSize FONT_SIZES.CONTACT).setFill
      COLORS.DARK_GRAY).text E (some contactInfo) (some MARGINS.left)
      (some d.y) { width := some textWidth, align := .left }
  linksBlock E data textWidth d

/-- The final photo adjustment of `generateHeader` (source lines
157-163): when a photo is present and the cursor is still above the
photo's bottom edge (10pt below the photo), force the cursor down to
it. -/
def photoBottomAdjust (data : ResumeData) (d : Doc) : Doc :=
  if jsTruthy data.photo then
    if d.y < MARGINS.top + PHOTO_SIZE + 1000 then
      { d with y := MARGINS.top + PHOTO_SIZE + 1000 }
    else d
  else d

/-- `generateHeader` (source lines 86-166). -/
def generateHeader (E : Engine) (data : ResumeData) (d : Doc) : Doc :=
  (photoBottomAdjust data (headerContent E data d)).moveDown E 150

/-! ## Professional summary section (source lines 171-194) -/

/-- The statements of `generateProfessionalSummary` after the header:
the summary paragraph with a 20pt first-line indent, then spacing. -/
def summaryContent (E : Engine) (data : ResumeData) (d : Doc) : Doc :=
  ((((d.setFont "Helvetica").setSize FONT_SIZES.SUMMARY).setFill
      COLORS.DARK_GRAY).text E (some data.summary) none none
      { width := some CONTENT_WIDTH, align := .left, indent := some 2000
        }).moveDown E 150

/-- `generateProfessionalSummary` (source lines 171-194). -/
def generateProfessionalSummary (E : Engine) (data : ResumeData)
    (d : Doc) : Doc :=
  if data.summary.isEmpty || (jsTrim data.summary).isEmpty then d
  else summaryContent E data
    (addSectionHeader E "PROFESSIONAL SUMMARY" (checkPageBreak d))

/-! ## Work experience section (source lines 199-311) -/

/-- One iteration of the projects sub-loop (source lines 272-301):
bulleted project name, optional detail line (only when the detail is
present and non-blank after trimming), spacing between projects but
not after the last. -/
def projectStep (E : Engine) (total : ℕ) (d : Doc)
    (ip : ℕ × Project) : Doc :=
  let d := d.moveDown E 25
  let d := (((d.setFont "Helvetica-Bold").setSize 9).setFill
      COLORS.DARK_GRAY).text E (some ("• " ++ ip.2.name))
      (some (MARGINS.left + 1000)) (some d.y)
      { width := some (CONTENT_WIDTH - 1000), align := .left }
  let d :=
    if jsTruthy ip.2.detail && !(jsTrim (ip.2.detail.getD "")).isEmpty then
      (((d.setFont "Helvetica").setSize 9).setFill COLORS.DARK_GRAY).text E
        ip.2.detail (some (MARGINS.left + 2000)) (some d.y)
        { width := some (CONTENT_WIDTH - 2000), align := .left }
    else d
  if ip.1 < total - 1 then d.moveDown E 25 else d

/-- The projects block of an experience entry (source lines 259-302). -/
def projectsBlock (E : Engine) (projects : List Project) (d : Doc) : Doc :=
  if projects.isEmpty then d
  else
    let d := d.moveDown E 50
    let d := (((d.setFont "Helvetica-Bold").setSize 9).setFill
        COLORS.BLACK).text E (some "Projects:") none none
        { width := some CONTENT_WIDTH, align := .left }
    (projects.enum).foldl (projectStep E projects.length) d

/-- The body of one experience entry after its page-break check
(source lines 215-307).  The company name and the duration are placed
at the same captured y coordinate.  The duration payload is the
source's `exp.duration`; the current `lib/schema.ts` experience record
has no `duration` field (it was replaced by
startMonth/startYear/endMonth/endYear/isCurrent), so the JS property
access evaluates to `undefined`, modelled as `none`. -/
def expEntryBody (E : Engine) (total : ℕ) (ie : ℕ × Experience)
    (d : Doc) : Doc :=
  let currentY := d.y
  let d := (((d.setFont "Helvetica-Bold").setSize FONT_SIZES.COMPANY).setFill
      COLORS.BLACK).text E (some ie.2.company) (some MARGINS.left)
      (some currentY)
      { width := some (CONTENT_WIDTH - 15000), align := .left,
        continued := some false }
  let d := d.text E none (some MARGINS.left) (some currentY)
      { width := some CONTENT_WIDTH, align := .right }
  let d := d.moveDown E 30
  let d := (((d.setFont "Helvetica-Oblique").setSize
      FONT_SIZES.POSITION).setFill COLORS.DARK_GRAY).text E
      (some ie.2.position) none none
      { width := some CONTENT_WIDTH, align := .left }
  let d := d.moveDown E 30
  let d := (((d.setFont "Helvetica").setSize
      FONT_SIZES.DESCRIPTION).setFill COLORS.DARK_GRAY).text E
      (some ie.2.description) none none
      { width := some CONTENT_WIDTH, align := .left }
  let d := projectsBlock E ie.2.projects d
  if ie.1 < total - 1 then d.moveDown E 100 else d

/-- One iteration of the experience loop (source lines 211-308): the
page-break check runs before each entry. -/
def expEntryStep (E : Engine) (total : ℕ) (d : Doc)
    (ie : ℕ × Experience) : Doc :=
  expEntryBody E total ie (checkPageBreak d)

/-- `generateWorkExperience` (source lines 199-311). -/
def generateWorkExperience (E : Engine) (data : ResumeData)
    (d : Doc) : Doc :=
  if data.experience.isEmpty then d
  else
    ((data.experience.enum).foldl
      (expEntryStep E data.experience.length)
      (addSectionHeader E "WORK EXPERIENCE" (checkPageBreak d))).moveDown E 150

/-! ## Education section (source lines 316-383) -/

/-- The body of one education entry after its page-break check (source
lines 328-379): institution and duration at the same captured y, the
degree line (with the field of study appended after an em-dash when it
is present and non-blank), an optional description paragraph, spacing
between entries but not after the last. -/
def eduEntryBody (E : Engine) (total : ℕ) (ie : ℕ × Education)
    (d : Doc) : Doc :=
  let currentY := d.y
  let d := (((d.setFont "Helvetica-Bold").setSize FONT_SIZES.COMPANY).setFill
      COLORS.BLACK).text E (some ie.2.institution) (some MARGINS.left)
      (some currentY)
      { width := some (CONTENT_WIDTH - 15000), align := .left,
        continued := some false }
  let d := d.text E (some ie.2.duration) (some MARGINS.left) (some currentY)
      { width := some CONTENT_WIDTH, align := .right }
  let d := d.moveDown E 30
  let degreeText :=
    if jsTruthy ie.2.fieldOfStudy &&
        !(jsTrim (ie.2.fieldOfStudy.getD "")).isEmpty then
      ie.2.degree ++ " — " ++ ie.2.fieldOfStudy.getD ""
    else ie.2.degree
  let d := (((d.setFont "Helvetica-Oblique").setSize
      FONT_SIZES.POSITION).setFill COLORS.DARK_GRAY).text E
      (some degreeText) none none
      { width := some CONTENT_WIDTH, align := .left }
  let d :=
    if jsTruthy ie.2.description &&
        !(jsTrim (ie.2.description.getD "")).isEmpty then
      ((((d.moveDown E 30).setFont "Helvetica").setSize
          FONT_SIZES.DESCRIPTION).setFill COLORS.DARK_GRAY).text E
        ie.2.description none none
        { width := some CONTENT_WIDTH, align := .left }
    else d
  if ie.1 < total - 1 then d.moveDown E 100 else d

/-- One iteration of the education loop (source lines 325-380): the
page-break check runs before each entry. -/
def eduEntryStep (E : Engine) (total : ℕ) (d : Doc)
    (ie : ℕ × Education) : Doc :=
  eduEntryBody E total ie (checkPageBreak d)

/-- `generateEducation` (source lines 316-383). -/
def generateEducation (E : Engine) (data : ResumeData) (d : Doc) : Doc :=
  if data.education.isEmpty then d
  else
    ((data.education.enum).foldl
      (eduEntryStep E data.education.length)
      (addSectionHeader E "EDUCATION" (checkPageBreak d))).moveDown E 150

/-! ## Skills section (source lines 388-410) -/

/-- The statements of `generateSkills` after the header: all skill
values joined with a bullet separator into one text block. -/
def skillsContent (E : Engine) (data : ResumeData) (d : Doc) : Doc :=
  let skillsText :=
    String.intercalate " • " (data.skills.map (fun s => s.value))
  ((((d.setFont "Helvetica").setSize FONT_SIZES.SKILLS).setFill
      COLORS.DARK_GRAY).text E (some skillsText) none none
      { width := some CONTENT_WIDTH, align := .left }).moveDown E 150

/-- `generateSkills` (source lines 388-410). -/
def generateSkills (E : Engine) (data : ResumeData) (d : Doc) : Doc :=
  if data.skills.isEmpty then d
  else skillsContent E data (addSectionHeader E "SKILLS" (checkPageBreak d))

/-! ## Certificates section (source lines 415-444) -/

/-- The `certText` ternary of the certificates loop (source lines
426-428): the year is appended in parentheses exactly when `cert.year`
is truthy. -/
def certLine (c : Certificate) : String :=
  if jsTruthy c.year then
    c.name ++ " — " ++ c.issuer ++ " (" ++ c.year.getD "" ++ ")"
  else c.name ++ " — " ++ c.issuer

/-- The text op emitted for one certificate. -/
def certTextOp (c : Certificate) : Op :=
  Op.text (some (certLine c)) none none
    { width := some CONTENT_WIDTH, align := .left }

/-- One iteration of the certificates loop (source lines 424-443):
small spacing after every certificate except the last. -/
def certStep (E : Engine) (total : ℕ) (d : Doc)
    (ic : ℕ × Certificate) : Doc :=
  let d := (((d.setFont "Helvetica").setSize
      FONT_SIZES.CERTIFICATES).setFill COLORS.DARK_GRAY).text E
      (some (certLine ic.2)) none none
      { width := some CONTENT_WIDTH, align := .left }
  if ic.1 < total - 1 then d.moveDown E 30 else d

/-- `generateCertificates` (source lines 415-444).  Unlike the other
sections it adds no trailing spacing after the loop. -/
def generateCertificates (E : Engine) (data : ResumeData) (d : Doc) : Doc :=
  if data.certificates.isEmpty then d
  else
    (data.certificates.enum).foldl
      (certStep E data.certificates.length)
      (addSectionHeader E "CERTIFICATES" (checkPageBreak d))

/-! ## Document assembly (source lines 47-81) -/

/-- The fresh pdfkit document: cursor at the top margin of the first
page, default font state, no ops emitted yet. -/
def initialDoc : Doc :=
  { y := MARGINS.top, font := "Helvetica", fontSize := 12,
    fillColor := "#000000", ops := [], nText := 0, nMove := 0 }

/-- The content-generation pipeline of `generateResumePDF` (source
lines 63-69): Header, Summary, Experience, Education, Skills,
Certificates, in that order.  There is no languages renderer in the
source. -/
def renderDoc (E : Engine) (data : ResumeData) : Doc :=
  generateCertificates E data
    (generateSkills E data
      (generateEducation E data
        (generateWorkExperience E data
          (generateProfessionalSummary E data
            (generateHeader E data initialDoc)))))

/-- The `catch` normalization of `generateResumePDF` (source lines
73-79): a caught value that is not an `Error` instance is replaced by
a generic error object. -/
def normalizeCaught : JSVal → JSError
  | .errorVal m => JSError.mk m
  | .nonError _ => JSError.mk "Unknown error during PDF generation"

/-- `generateResumePDF` (source lines 47-81): the whole pipeline runs
inside one try/catch in a single-shot promise executor.  A fault
injected by the engine (construction failure or a throw from any write
primitive) makes the promise reject once with the normalized error; in
the absence of a fault the promise resolves once with the finished
document, whose ops are the complete trace of the pipeline.  The
emitted bytes are only concatenated and resolved on the `end` event,
after `doc.end()`, so no partial buffer is ever handed out. -/
def generateResumePDF (E : Engine) (data : ResumeData) :
    Except JSError (List Op) :=
  match E.fault with
  | some v => .error (normalizeCaught v)
  | none => .ok (renderDoc E data).ops

/-! ## Trace collectors -/

/-- The payloads of the text ops of a trace, in order (`none` is a JS
`undefined` payload). -/
def textPayloads : List Op → List (Option String)
  | [] => []
  | Op.text s _ _ _ :: rest => s :: textPayloads rest
  | _ :: rest => textPayloads rest

/-- The `width` option of the text ops of a trace, in order. -/
def textWidths : List Op → List (Option ℤ)
  | [] => []
  | Op.text _ _ _ o :: rest => o.width :: textWidths rest
  | _ :: rest => textWidths rest

/-- The payloads of the right-aligned text ops of a trace, in order
(in the source only the experience and education duration cells are
right-aligned). -/
def rightAlignedPayloads : List Op → List (Option String)
  | [] => []
  | Op.text s _ _ o :: rest =>
      if o.align = TextAlign.right then s :: rightAlignedPayloads rest
      else rightAlignedPayloads rest
  | _ :: rest => rightAlignedPayloads rest

/-- The placements (x, y, w, h) of the image ops of a trace, in order. -/
def imagesOf : List Op → List (ℤ × ℤ × ℤ × ℤ)
  | [] => []
  | Op.image x y w h :: rest => (x, y, w, h) :: imagesOf rest
  | _ :: rest => imagesOf rest

/-! ## Concrete test fixtures -/

/-- A concrete engine for evaluating the renderer on concrete records:
every text block is 12pt high, every line is 12pt high, every image
placement succeeds, no fault. -/
def E0 : Engine :=
  { textHeight := fun _ => 1200, lineHeight := fun _ => 12,
    imageOk := fun _ => true, fault := none }

/-- A minimal base record (required scalar fields only). -/
def baseRec : ResumeData :=
  { firstName := "Jane", lastName := "Doe",
    email := "jane.doe@example.com", phone := "+1 555 000 0000",
    summary := "Experienced software engineer.",
    links := [], experience := [], education := [], languages := [],
    skills := [], certificates := [] }

/-- Record with a git link and an other-typed link carrying a custom
label. -/
def recLinks : ResumeData :=
  { baseRec with links :=
      [ { type := LinkType.git, url := "https://github.com/x" },
        { type := LinkType.other, url := "https://blog.example.com",
          otherLabel := some "blog" } ] }

/-- Record with languages, one education entry and skills. -/
def recLangs : ResumeData :=
  { baseRec with
      education :=
        [ { institution := "State University", degree := "B.Sc.",
            duration := "2012 – 2016" } ],
      languages :=
        [ { language := "English", level := LangLevel.native },
          { language := "French", level := LangLevel.fluent } ],
      skills := [ { value := "TypeScript" }, { value := "React" } ] }

/-- Record with one ongoing experience entry. -/
def recOngoing : ResumeData :=
  { baseRec with experience :=
      [ { company := "Startup Inc", position := "Engineer",
          startMonth := "June", startYear := "2022", isCurrent := true,
          description := "Building new features.", projects := [] } ] }

/-- Record with a photo payload (a 1x1 PNG data URI, abbreviated). -/
def recPhoto : ResumeData :=
  { baseRec with photo := some "data:image/png;base64,iVBORw0KGgo=" }

/-- Record with certificates, one with a year and one without. -/
def recCerts : ResumeData :=
  { baseRec with certificates :=
      [ { name := "AWS Solutions Architect", issuer := "Amazon",
          year := some "2022" },
        { name := "Certified Scrum Master", issuer := "Scrum Alliance" } ] }

/-- Engine identical to `E0` except that every image placement fails
(an undecodable photo payload). -/
def E0bad : Engine := { E0 with imageOk := fun _ => false }

/-- Engine identical to `E0` except that the pipeline throws a
non-error JS value. -/
def E0fault : Engine := { E0 with fault := some (JSVal.nonError "plain string") }

/-- A record whose summary is blank after trimming. -/
def blankSummaryRec : ResumeData := { baseRec with summary := "   " }

/-- A document whose cursor is 800pt down the page, leaving less than
100pt of remaining space. -/
def docLow : Doc := { initialDoc with y := 80000 }

/-! ## Helper lemmas: op traces of the primitives -/

theorem ops_setFont (d : Doc) (f : String) :
    (Doc.setFont d f).ops = d.ops := rfl

theorem ops_setSize (d : Doc) (s : ℤ) :
    (Doc.setSize d s).ops = d.ops := rfl

theorem ops_setFill (d : Doc) (c : String) :
    (Doc.setFill d c).ops = d.ops := rfl

theorem ops_text (d : Doc) (E : Engine) (s : Option String)
    (x yPos : Option ℤ) (o : TextOpts) :
    (Doc.text d E s x yPos o).ops = d.ops ++ [Op.text s x yPos o] := rfl

theorem ops_moveDown (d : Doc) (E : Engine) (n : ℤ) :
    (Doc.moveDown d E n).ops = d.ops ++ [Op.down n] := rfl

theorem ops_addPage (d : Doc) :
    (Doc.addPage d).ops = d.ops ++ [Op.page] := rfl

theorem ops_image (d : Doc) (x yPos w h : ℤ) :
    (Doc.image d x yPos w h).ops = d.ops ++ [Op.image x yPos w h] := rfl

theorem ops_strokeLine (d : Doc) (x1 y1 x2 y2 : ℤ) :
    (Doc.strokeLine d x1 y1 x2 y2).ops = d.ops ++ [Op.line x1 y1 x2 y2] := rfl

theorem ops_photoBottomAdjust (data : ResumeData) (d : Doc) :
    (photoBottomAdjust data d).ops = d.ops := by
  unfold photoBottomAdjust
  split
  · split <;> rfl
  · rfl

/-! ## Helper lemmas: collectors distribute over trace concatenation -/

theorem textPayloads_append (l1 l2 : List Op) :
    textPayloads (l1 ++ l2) = textPayloads l1 ++ textPayloads l2 := by
  induction l1 with
  | nil => rfl
  | cons a t ih => cases a <;> simp [textPayloads, ih]

theorem textWidths_append (l1 l2 : List Op) :
    textWidths (l1 ++ l2) = textWidths l1 ++ textWidths l2 := by
  induction l1 with
  | nil => rfl
  | cons a t ih => cases a <;> simp [textWidths, ih]

theorem imagesOf_append (l1 l2 : List Op) :
    imagesOf (l1 ++ l2) = imagesOf l1 ++ imagesOf l2 := by
  induction l1 with
  | nil => rfl
  | cons a t ih => cases a <;> simp [imagesOf, ih]

/-! ## Helper lemmas: `imagesOf` invariance of every primitive except
`Doc.image`, lifted through the section renderers -/

theorem imagesOf_setFont (d : Doc) (f : String) :
    imagesOf (Doc.setFont d f).ops = imagesOf d.ops := rfl

theorem imagesOf_setSize (d : Doc) (s : ℤ) :
    imagesOf (Doc.setSize d s).ops = imagesOf d.ops := rfl

theorem imagesOf_setFill (d : Doc) (c : String) :
    imagesOf (Doc.setFill d c).ops = imagesOf d.ops := rfl

theorem imagesOf_text (d : Doc) (E : Engine) (s : Option String)
    (x yPos : Option ℤ) (o : TextOpts) :
    imagesOf (Doc.text d E s x yPos o).ops = imagesOf d.ops := by
  rw [ops_text, imagesOf_append]; simp [imagesOf]

theorem imagesOf_moveDown (d : Doc) (E : Engine) (n : ℤ) :
    imagesOf (Doc.moveDown d E n).ops = imagesOf d.ops := by
  rw [ops_moveDown, imagesOf_append]; simp [imagesOf]

theorem imagesOf_addPage (d : Doc) :
    imagesOf (Doc.addPage d).ops = imagesOf d.ops := by
  rw [ops_addPage, imagesOf_append]; simp [imagesOf]

theorem imagesOf_strokeLine (d : Doc) (x1 y1 x2 y2 : ℤ) :
    imagesOf (Doc.strokeLine d x1 y1 x2 y2).ops = imagesOf d.ops := by
  rw [ops_strokeLine, imagesOf_append]; simp [imagesOf]

theorem imagesOf_foldl {α : Type} (step : Doc → α → Doc)
    (h : ∀ d a, imagesOf (step d a).ops = imagesOf d.ops) :
    ∀ (l : List α) (d : Doc),
      imagesOf (l.foldl step d).ops = imagesOf d.ops := by
  intro l
  induction l with
  | nil => intro d; rfl
  | cons a t ih =>
      intro d
      simp only [List.foldl]
      rw [ih, h]

theorem imagesOf_checkPageBreak (d : Doc) :
    imagesOf (checkPageBreak d).ops = imagesOf d.ops := by
  unfold checkPageBreak
  split
  · exact imagesOf_addPage d
  · rfl

theorem imagesOf_addSectionHeader (E : Engine) (t : String) (d : Doc) :
    imagesOf (addSectionHeader E t d).ops = imagesOf d.ops := by
  unfold addSectionHeader
  simp only [imagesOf_moveDown, imagesOf_strokeLine, imagesOf_text,
    imagesOf_setFill, imagesOf_setSize, imagesOf_setFont]

theorem imagesOf_projectStep (E : Engine) (total : ℕ) (d : Doc)
    (ip : ℕ × Project) :
    imagesOf (projectStep E total d ip).ops = imagesOf d.ops := by
  unfold projectStep
  repeat' split
  all_goals
    simp only [imagesOf_moveDown, imagesOf_text, imagesOf_setFill,
      imagesOf_setSize, imagesOf_setFont]

theorem imagesOf_projectsBlock (E : Engine) (ps : List Project) (d : Doc) :
    imagesOf (projectsBlock E ps d).ops = imagesOf d.ops := by
  unfold projectsBlock
  split
  · rfl
  · rw [imagesOf_foldl (projectStep E ps.length)
      (imagesOf_projectStep E ps.length)]
    simp only [imagesOf_moveDown, imagesOf_text, imagesOf_setFill,
      imagesOf_setSize, imagesOf_setFont]

theorem imagesOf_expEntryStep (E : Engine) (total : ℕ) (d : Doc)
    (ie : ℕ × Experience) :
    imagesOf (expEntryStep E total d ie).ops = imagesOf d.ops := by
  unfold expEntryStep expEntryBody
  split <;>
    simp only [imagesOf_moveDown, imagesOf_projectsBlock, imagesOf_text,
      imagesOf_setFill, imagesOf_setSize, imagesOf_setFont,
      imagesOf_checkPageBreak]

theorem imagesOf_eduEntryStep (E : Engine) (total : ℕ) (d : Doc)
    (ie : ℕ × Education) :
    imagesOf (eduEntryStep E total d ie).ops = imagesOf d.ops := by
  unfold eduEntryStep eduEntryBody
  repeat' split
  all_goals
    simp only [imagesOf_moveDown, imagesOf_text, imagesOf_setFill,
      imagesOf_setSize, imagesOf_setFont, imagesOf_checkPageBreak]

theorem imagesOf_generateProfessionalSummary (E : Engine)
    (data : ResumeData) (d : Doc) :
    imagesOf (generateProfessionalSummary E data d).ops = imagesOf d.ops := by
  unfold generateProfessionalSummary summaryContent
  split
  · rfl
  · simp only [imagesOf_moveDown, imagesOf_text, imagesOf_setFill,
      imagesOf_setSize, imagesOf_setFont, imagesOf_addSectionHeader,
      imagesOf_checkPageBreak]

theorem imagesOf_generateWorkExperience (E : Engine)
    (data : ResumeData) (d : Doc) :
    imagesOf (generateWorkExperience E data d).ops = imagesOf d.ops := by
  unfold generateWorkExperience
  split
  · rfl
  · rw [imagesOf_moveDown,
      imagesOf_foldl (expEntryStep E data.experience.length)
        (imagesOf_expEntryStep E data.experience.length),
      imagesOf_addSectionHeader, imagesOf_checkPageBreak]

theorem imagesOf_generateEducation (E : Engine)
    (data : ResumeData) (d : Doc) :
    imagesOf (generateEducation E data d).ops = imagesOf d.ops := by
  unfold generateEducation
  split
  · rfl
  · rw [imagesOf_moveDown,
      imagesOf_foldl (eduEntryStep E data.education.length)
        (imagesOf_eduEntryStep E data.education.length),
      imagesOf_addSectionHeader, imagesOf_checkPageBreak]

theorem imagesOf_generateSkills (E : Engine)
    (data : ResumeData) (d : Doc) :
    imagesOf (generateSkills E data d).ops = imagesOf d.ops := by
  unfold generateSkills skillsContent
  split
  · rfl
  · simp only [imagesOf_moveDown, imagesOf_text, imagesOf_setFill,
      imagesOf_setSize, imagesOf_setFont, imagesOf_addSectionHeader,
      imagesOf_checkPageBreak]

theorem imagesOf_certStep (E : Engine) (total : ℕ) (d : Doc)
    (ic : ℕ × Certificate) :
    imagesOf (certStep E total d ic).ops = imagesOf d.ops := by
  unfold certStep
  split <;>
    simp only [imagesOf_moveDown, imagesOf_text, imagesOf_setFill,
      imagesOf_setSize, imagesOf_setFont]

theorem imagesOf_generateCertificates (E : Engine)
    (data : ResumeData) (d : Doc) :
    imagesOf (generateCertificates E data d).ops = imagesOf d.ops := by
  unfold generateCertificates
  split
  · rfl
  · rw [imagesOf_foldl (certStep E data.certificates.length)
      (imagesOf_certStep E data.certificates.length),
      imagesOf_addSectionHeader, imagesOf_checkPageBreak]

theorem imagesOf_linkStep (E : Engine) (tw : ℤ) (total : ℕ) (d : Doc)
    (il : ℕ × Link) :
    imagesOf (linkStep E tw total d il).ops = imagesOf d.ops := by
  unfold linkStep
  split <;>
    simp only [imagesOf_moveDown, imagesOf_text, imagesOf_setFill]

theorem imagesOf_linksBlock (E : Engine) (data : ResumeData) (tw : ℤ)
    (d : Doc) :
    imagesOf (linksBlock E data tw d).ops = imagesOf d.ops := by
  unfold linksBlock
  split
  · rfl
  · rw [imagesOf_foldl (linkStep E tw data.links.length)
      (imagesOf_linkStep E tw data.links.length), imagesOf_moveDown]

/-- When the photo payload fails to decode or place (or no photo is
present), the header emits no image op. -/
theorem imagesOf_generateHeader_fail (E : Engine) (data : ResumeData)
    (d : Doc) (h : ∀ p, data.photo = some p → E.imageOk p = false) :
    imagesOf (generateHeader E data d).ops = imagesOf d.ops := by
  have htry : imagesOf (tryPlacePhoto E data d).ops = imagesOf d.ops := by
    unfold tryPlacePhoto
    split
    · cases hp : data.photo with
      | none => rfl
      | some p => simp [h p hp]
    · rfl
  unfold generateHeader headerContent
  rw [imagesOf_moveDown]
  conv =>
    lhs
    rw [ops_photoBottomAdjust]
  rw [imagesOf_linksBlock]
  simp only [imagesOf_text, imagesOf_moveDown, imagesOf_setFill,
    imagesOf_setSize, imagesOf_setFont, htry]

/-! ## Helper lemmas: `textWidths` through the header -/

theorem textWidths_setFont (d : Doc) (f : String) :
    textWidths (Doc.setFont d f).ops = textWidths d.ops := rfl

theorem textWidths_setSize (d : Doc) (s : ℤ) :
    textWidths (Doc.setSize d s).ops = textWidths d.ops := rfl

theorem textWidths_setFill (d : Doc) (c : String) :
    textWidths (Doc.setFill d c).ops = textWidths d.ops := rfl

theorem textWidths_text (d : Doc) (E : Engine) (s : Option String)
    (x yPos : Option ℤ) (o : TextOpts) :
    textWidths (Doc.text d E s x yPos o).ops = textWidths d.ops ++ [o.width] := by
  rw [ops_text, textWidths_append]; rfl

theorem textWidths_moveDown (d : Doc) (E : Engine) (n : ℤ) :
    textWidths (Doc.moveDown d E n).ops = textWidths d.ops := by
  rw [ops_moveDown, textWidths_append]; simp [textWidths]

theorem textWidths_image (d : Doc) (x yPos w h : ℤ) :
    textWidths (Doc.image d x yPos w h).ops = textWidths d.ops := by
  rw [ops_image, textWidths_append]; simp [textWidths]

theorem textWidths_tryPlacePhoto (E : Engine) (data : ResumeData)
    (d : Doc) :
    textWidths (tryPlacePhoto E data d).ops = textWidths d.ops := by
  unfold tryPlacePhoto
  repeat' split
  all_goals simp only [textWidths_image]

theorem textWidths_foldl_const {α : Type} (step : Doc → α → Doc)
    (w : Option ℤ)
    (h : ∀ d a, textWidths (step d a).ops = textWidths d.ops ++ [w]) :
    ∀ (l : List α) (d : Doc),
      textWidths (l.foldl step d).ops =
        textWidths d.ops ++ List.replicate l.length w := by
  intro l
  induction l with
  | nil => intro d; simp
  | cons a t ih =>
      intro d
      simp only [List.foldl, List.length_cons]
      rw [ih, h]
      simp [List.replicate_succ, List.append_assoc]

theorem textWidths_linkStep (E : Engine) (tw : ℤ) (total : ℕ) (d : Doc)
    (il : ℕ × Link) :
    textWidths (linkStep E tw total d il).ops = textWidths d.ops ++ [some tw] := by
  unfold linkStep
  split <;>
    simp [textWidths_moveDown, textWidths_text, textWidths_setFill]

theorem textWidths_linksBlock (E : Engine) (data : ResumeData) (tw : ℤ)
    (d : Doc) :
    textWidths (linksBlock E data tw d).ops =
      textWidths d.ops ++ List.replicate data.links.length (some tw) := by
  unfold linksBlock
  split
  · next h =>
      rw [List.isEmpty_iff.mp h]
      simp
  · rw [textWidths_foldl_const (linkStep E tw data.links.length) (some tw)
      (textWidths_linkStep E tw data.links.length), textWidths_moveDown]
    simp [List.enum_length]

theorem textWidths_headerContent (E : Engine) (data : ResumeData)
    (d : Doc) :
    textWidths (headerContent E data d).ops =
      textWidths d.ops ++
        List.replicate (2 + data.links.length) (some (headerTextWidth data)) := by
  unfold headerContent
  rw [textWidths_linksBlock]
  simp only [textWidths_text, textWidths_moveDown, textWidths_setFill,
    textWidths_setSize, textWidths_setFont, textWidths_tryPlacePhoto]
  simp [List.replicate_add, List.replicate_succ, List.append_assoc]

theorem textWidths_generateHeader (E : Engine) (data : ResumeData)
    (d : Doc) :
    textWidths (generateHeader E data d).ops =
      textWidths d.ops ++
        List.replicate (2 + data.links.length) (some (headerTextWidth data)) := by
  unfold generateHeader
  rw [textWidths_moveDown]
  conv =>
    lhs
    rw [ops_photoBottomAdjust]
  rw [textWidths_headerContent]

/-! ## Helper lemma: the certificates loop interleaves exactly one
small spacing between consecutive entries -/

theorem certStep_ops_last (E : Engine) (total : ℕ) (d : Doc)
    (ic : ℕ × Certificate) (h : ¬ ic.1 < total - 1) :
    (certStep E total d ic).ops = d.ops ++ [certTextOp ic.2] := by
  unfold certStep
  rw [if_neg h, ops_text, ops_setFill, ops_setSize, ops_setFont]
  rfl

theorem certStep_ops_mid (E : Engine) (total : ℕ) (d : Doc)
    (ic : ℕ × Certificate) (h : ic.1 < total - 1) :
    (certStep E total d ic).ops = d.ops ++ [certTextOp ic.2, Op.down 30] := by
  unfold certStep
  rw [if_pos h, ops_moveDown, ops_text, ops_setFill, ops_setSize, ops_setFont]
  simp [certTextOp]

theorem certLoop_ops (E : Engine) (total : ℕ) :
    ∀ (cs : List Certificate) (j : ℕ) (d : Doc),
      j + cs.length = total → cs ≠ [] →
      ((List.enumFrom j cs).foldl (certStep E total) d).ops =
        d.ops ++ List.intersperse (Op.down 30) (cs.map certTextOp) := by
  intro cs
  induction cs with
  | nil => intro j d h hne; exact absurd rfl hne
  | cons c t ih =>
      intro j d h _
      cases t with
      | nil =>
          have hj : ¬ j < total - 1 := by
            simp at h
            omega
          simp only [List.enumFrom, List.foldl, List.map, List.intersperse]
          exact certStep_ops_last E total d (j, c) hj
      | cons c2 t2 =>
          have hj : j < total - 1 := by
            simp [List.length_cons] at h
            omega
          rw [show List.enumFrom j (c :: c2 :: t2) =
              (j, c) :: List.enumFrom (j + 1) (c2 :: t2) from rfl,
            List.foldl_cons,
            ih (j + 1) (certStep E total d (j, c))
              (by simp [List.length_cons] at h ⊢; omega) (by simp),
            certStep_ops_mid E total d (j, c) hj]
          simp [List.intersperse, List.append_assoc]

/-! ## Claim theorems -/

/-- C1: the claim states that a link line uses the pure link-label
rule (git maps to "Git Repo", a non-blank custom label of an
other-typed link is capitalized and used, the raw lowercase form never
appears).  The code instead renders `capitalizeFirst(link.type)` and
ignores `otherLabel` entirely: a git link renders "Git: url" (never
"Git Repo: url") and an other-typed link with otherLabel "blog"
renders "Other: url" (never "Blog: url").  This theorem evaluates the
renderer at such a record. -/
theorem c1_link_label_divergence :
    textPayloads (renderDoc E0 recLinks).ops =
      [some "Jane Doe", some "jane.doe@example.com | +1 555 000 0000",
       some "Git: https://github.com/x",
       some "Other: https://blog.example.com",
       some "PROFESSIONAL SUMMARY",
       some "Experienced software engineer."] ∧
    some "Git Repo: https://github.com/x" ∉
      textPayloads (renderDoc E0 recLinks).ops ∧
    some "Blog: https://blog.example.com" ∉
      textPayloads (renderDoc E0 recLinks).ops := by
  have h : textPayloads (renderDoc E0 recLinks).ops =
      [some "Jane Doe", some "jane.doe@example.com | +1 555 000 0000",
       some "Git: https://github.com/x",
       some "Other: https://blog.example.com",
       some "PROFESSIONAL SUMMARY",
       some "Experienced software engineer."] := by decide
  refine ⟨h, ?_, ?_⟩ <;> rw [h] <;> decide

/-- C2: the claim states that the section renderers run in the fixed
order Header, Summary, Experience, Education, Languages, Skills,
Certificates, with a Languages block (language/level pairs joined by
bullets) between Education and Skills.  The code's pipeline contains
no languages renderer at all: the trace of a record with two languages
shows EDUCATION followed directly by SKILLS, no "LANGUAGES" title and
no joined language block. -/
theorem c2_languages_section_missing :
    (∀ (E : Engine) (data : ResumeData),
       renderDoc E data =
         generateCertificates E data
           (generateSkills E data
             (generateEducation E data
               (generateWorkExperience E data
                 (generateProfessionalSummary E data
                   (generateHeader E data initialDoc)))))) ∧
    textPayloads (renderDoc E0 recLangs).ops =
      [some "Jane Doe", some "jane.doe@example.com | +1 555 000 0000",
       some "PROFESSIONAL SUMMARY", some "Experienced software engineer.",
       some "EDUCATION", some "State University", some "2012 – 2016",
       some "B.Sc.", some "SKILLS", some "TypeScript • React"] ∧
    some "LANGUAGES" ∉ textPayloads (renderDoc E0 recLangs).ops ∧
    some "English — Native • French — Fluent" ∉
      textPayloads (renderDoc E0 recLangs).ops := by
  have h : textPayloads (renderDoc E0 recLangs).ops =
      [some "Jane Doe", some "jane.doe@example.com | +1 555 000 0000",
       some "PROFESSIONAL SUMMARY", some "Experienced software engineer.",
       some "EDUCATION", some "State University", some "2012 – 2016",
       some "B.Sc.", some "SKILLS", some "TypeScript • React"] := by decide
  refine ⟨fun E data => rfl, h, ?_, ?_⟩ <;> rw [h] <;> decide

/-- C3: the claim states that the right-aligned duration of an
experience entry is composed from the entry's date fields (isCurrent
true yielding "<StartMonth> <StartYear> – Present").  The code renders
`exp.duration`, a field the current schema's experience record does
not have (the JS property access yields undefined), so for an ongoing
entry starting June 2022 the right-aligned cell carries the undefined
payload and the composed string "June 2022 – Present" appears nowhere. -/
theorem c3_duration_not_composed :
    textPayloads (renderDoc E0 recOngoing).ops =
      [some "Jane Doe", some "jane.doe@example.com | +1 555 000 0000",
       some "PROFESSIONAL SUMMARY", some "Experienced software engineer.",
       some "WORK EXPERIENCE", some "Startup Inc", none, some "Engineer",
       some "Building new features."] ∧
    rightAlignedPayloads (renderDoc E0 recOngoing).ops = [none] ∧
    some "June 2022 – Present" ∉ textPayloads (renderDoc E0 recOngoing).ops := by
  have h : textPayloads (renderDoc E0 recOngoing).ops =
      [some "Jane Doe", some "jane.doe@example.com | +1 555 000 0000",
       some "PROFESSIONAL SUMMARY", some "Experienced software engineer.",
       some "WORK EXPERIENCE", some "Startup Inc", none, some "Engineer",
       some "Building new features."] := by decide
  refine ⟨h, by decide, ?_⟩
  rw [h]; decide

/-- C4: the claim states that the photo is placed top-right as a
fixed 110x110 pt square.  The code's `PHOTO_SIZE` constant is 200pt
(20000 centipoints) — contradicting its own "110pt square" comment —
so the image is fitted into a 200x200 pt box at
(PAGE_WIDTH - right margin - PHOTO_SIZE, top margin) = (345.28pt, 50pt),
and no 110x110 placement occurs. -/
theorem c4_photo_box_is_200 :
    imagesOf (renderDoc E0 recPhoto).ops =
      [(PAGE_WIDTH - MARGINS.right - PHOTO_SIZE, MARGINS.top,
        PHOTO_SIZE, PHOTO_SIZE)] ∧
    imagesOf (renderDoc E0 recPhoto).ops = [(34528, 5000, 20000, 20000)] ∧
    PHOTO_SIZE ≠ 11000 := by
  refine ⟨by decide, by decide, by decide⟩

/-- C5: the page-break check triggers (appending a blank page and
resetting the cursor to the top margin) exactly when
pageHeight - bottomMargin - cursor.y is strictly below the fixed 100pt
threshold, and the check runs before every section header and before
every individual experience and education entry. -/
theorem c5_page_break_policy :
    (∀ d : Doc, PAGE_HEIGHT - MARGINS.bottom - d.y < 10000 →
       checkPageBreak d = d.addPage ∧ (checkPageBreak d).y = MARGINS.top ∧
       (checkPageBreak d).ops = d.ops ++ [Op.page]) ∧
    (∀ d : Doc, ¬ PAGE_HEIGHT - MARGINS.bottom - d.y < 10000 →
       checkPageBreak d = d) ∧
    (∀ (E : Engine) (data : ResumeData) (d : Doc),
       (data.summary.isEmpty || (jsTrim data.summary).isEmpty) = false →
       generateProfessionalSummary E data d =
         summaryContent E data
           (addSectionHeader E "PROFESSIONAL SUMMARY" (checkPageBreak d))) ∧
    (∀ (E : Engine) (data : ResumeData) (d : Doc),
       data.experience.isEmpty = false →
       generateWorkExperience E data d =
         ((data.experience.enum).foldl (expEntryStep E data.experience.length)
           (addSectionHeader E "WORK EXPERIENCE" (checkPageBreak d))).moveDown
             E 150) ∧
    (∀ (E : Engine) (data : ResumeData) (d : Doc),
       data.education.isEmpty = false →
       generateEducation E data d =
         ((data.education.enum).foldl (eduEntryStep E data.education.length)
           (addSectionHeader E "EDUCATION" (checkPageBreak d))).moveDown
             E 150) ∧
    (∀ (E : Engine) (data : ResumeData) (d : Doc),
       data.skills.isEmpty = false →
       generateSkills E data d =
         skillsContent E data (addSectionHeader E "SKILLS" (checkPageBreak d))) ∧
    (∀ (E : Engine) (data : ResumeData) (d : Doc),
       data.certificates.isEmpty = false →
       generateCertificates E data d =
         (data.certificates.enum).foldl (certStep E data.certificates.length)
           (addSectionHeader E "CERTIFICATES" (checkPageBreak d))) ∧
    (∀ (E : Engine) (total : ℕ) (d : Doc) (ie : ℕ × Experience),
       expEntryStep E total d ie = expEntryBody E total ie (checkPageBreak d)) ∧
    (∀ (E : Engine) (total : ℕ) (d : Doc) (ie : ℕ × Education),
       eduEntryStep E total d ie = eduEntryBody E total ie (checkPageBreak d)) := by
  refine ⟨?_, ?_, ?_, ?_, ?_, ?_, ?_, fun E total d ie => rfl,
    fun E total d ie => rfl⟩
  · intro d h
    refine ⟨?_, ?_, ?_⟩ <;> simp [checkPageBreak, h, Doc.addPage]
  · intro d h
    simp [checkPageBreak, h]
  · intro E data d h
    simp [generateProfessionalSummary, h]
  · intro E data d h
    simp [generateWorkExperience, h]
  · intro E data d h
    simp [generateEducation, h]
  · intro E data d h
    simp [generateSkills, h]
  · intro E data d h
    simp [generateCertificates, h]

/-- C5 witness: at a cursor 800pt down the page the remaining space is
below 100pt and a page is appended; at the top of a fresh page it is
not; a nonempty skills section factors through the page-break check
before its header. -/
theorem c5_page_break_policy_witness :
    checkPageBreak docLow = docLow.addPage ∧
    checkPageBreak initialDoc = initialDoc ∧
    generateSkills E0 recLangs initialDoc =
      skillsContent E0 recLangs
        (addSectionHeader E0 "SKILLS" (checkPageBreak initialDoc)) :=
  ⟨(c5_page_break_policy.1 docLow (by decide)).1,
   c5_page_break_policy.2.1 initialDoc (by decide),
   c5_page_break_policy.2.2.2.2.2.1 E0 recLangs initialDoc (by decide)⟩

/-- C6: a section renderer whose data is empty (absent, zero-length,
or for the summary blank) emits nothing — no text, no divider, no
title — and leaves the document state (in particular the cursor)
unchanged; the languages data is never rendered at all, so an empty
languages array also contributes nothing. -/
theorem c6_empty_sections_elided :
    ∀ (E : Engine) (data : ResumeData) (d : Doc),
    ((data.summary.isEmpty || (jsTrim data.summary).isEmpty) = true →
       generateProfessionalSummary E data d = d) ∧
    (data.experience = [] → generateWorkExperience E data d = d) ∧
    (data.education = [] → generateEducation E data d = d) ∧
    (data.skills = [] → generateSkills E data d = d) ∧
    (data.certificates = [] → generateCertificates E data d = d) ∧
    (∀ ls : List Language,
       renderDoc E { data with languages := ls } = renderDoc E data) := by
  intro E data d
  refine ⟨?_, ?_, ?_, ?_, ?_, fun ls => rfl⟩
  · intro h; simp [generateProfessionalSummary, h]
  · intro h; simp [generateWorkExperience, h]
  · intro h; simp [generateEducation, h]
  · intro h; simp [generateSkills, h]
  · intro h; simp [generateCertificates, h]

/-- C6 witness: each renderer applied to empty data at the fresh
document returns it unchanged, and replacing the languages array
changes nothing. -/
theorem c6_empty_sections_elided_witness :
    generateProfessionalSummary E0 blankSummaryRec initialDoc = initialDoc ∧
    generateWorkExperience E0 baseRec initialDoc = initialDoc ∧
    generateEducation E0 baseRec initialDoc = initialDoc ∧
    generateSkills E0 baseRec initialDoc = initialDoc ∧
    generateCertificates E0 baseRec initialDoc = initialDoc ∧
    renderDoc E0 { recLangs with languages := [] } = renderDoc E0 recLangs :=
  ⟨(c6_empty_sections_elided E0 blankSummaryRec initialDoc).1 (by decide),
   (c6_empty_sections_elided E0 baseRec initialDoc).2.1 rfl,
   (c6_empty_sections_elided E0 baseRec initialDoc).2.2.1 rfl,
   (c6_empty_sections_elided E0 baseRec initialDoc).2.2.2.1 rfl,
   (c6_empty_sections_elided E0 baseRec initialDoc).2.2.2.2.1 rfl,
   (c6_empty_sections_elided E0 recLangs initialDoc).2.2.2.2.2 []⟩

/-- C7: when the photo payload is present but fails to decode or
place, the render still resolves with the complete document and no
image is placed anywhere in the trace — photo failure never makes the
render fail. -/
theorem c7_photo_failure_recovered :
    ∀ (E : Engine) (data : ResumeData) (p : String),
    data.photo = some p → E.imageOk p = false → E.fault = none →
    generateResumePDF E data = Except.ok (renderDoc E data).ops ∧
    imagesOf (renderDoc E data).ops = [] := by
  intro E data p hp hok hf
  constructor
  · simp [generateResumePDF, hf]
  · unfold renderDoc
    rw [imagesOf_generateCertificates, imagesOf_generateSkills,
      imagesOf_generateEducation, imagesOf_generateWorkExperience,
      imagesOf_generateProfessionalSummary,
      imagesOf_generateHeader_fail E data initialDoc ?_]
    · rfl
    · intro q hq
      rw [hp] at hq
      injection hq with hpq
      rw [← hpq]
      exact hok

/-- C7 witness: with an engine on which every image placement fails,
the photo record still renders completely and without any image op. -/
theorem c7_photo_failure_recovered_witness :
    generateResumePDF E0bad recPhoto = Except.ok (renderDoc E0bad recPhoto).ops ∧
    imagesOf (renderDoc E0bad recPhoto).ops = [] :=
  c7_photo_failure_recovered E0bad recPhoto
    "data:image/png;base64,iVBORw0KGgo=" rfl rfl rfl

/-- C8: the render resolves with the complete trace when nothing
throws, and rejects exactly once with an error-shaped value when any
pipeline step throws; a thrown non-error value is normalized to the
generic error object. -/
theorem c8_failure_normalized :
    ∀ (E : Engine) (data : ResumeData),
    (E.fault = none →
       generateResumePDF E data = Except.ok (renderDoc E data).ops) ∧
    (∀ v : JSVal, E.fault = some v →
       generateResumePDF E data = Except.error (normalizeCaught v)) ∧
    (∀ m : String, normalizeCaught (JSVal.errorVal m) = JSError.mk m) ∧
    (∀ t : String, normalizeCaught (JSVal.nonError t) =
       JSError.mk "Unknown error during PDF generation") := by
  intro E data
  refine ⟨?_, ?_, fun m => rfl, fun t => rfl⟩
  · intro h; simp [generateResumePDF, h]
  · intro v h; simp [generateResumePDF, h]

/-- C8 witness: a clean engine resolves with the full trace; an engine
throwing a plain string rejects with the generic error object. -/
theorem c8_failure_normalized_witness :
    generateResumePDF E0 baseRec = Except.ok (renderDoc E0 baseRec).ops ∧
    generateResumePDF E0fault baseRec =
      Except.error (JSError.mk "Unknown error during PDF generation") :=
  ⟨(c8_failure_normalized E0 baseRec).1 rfl,
   (c8_failure_normalized E0fault baseRec).2.1
     (JSVal.nonError "plain string") rfl⟩

/-- The claim's formulation of a certificate line (spec section 4.9),
for comparison with the code's `certLine`: the parenthesized year
appears exactly when the year field is present and non-blank. -/
def certLineSpec (c : Certificate) : String :=
  match c.year with
  | some y =>
      if !(jsTrim y).isEmpty then
        c.name ++ " — " ++ c.issuer ++ " (" ++ y ++ ")"
      else c.name ++ " — " ++ c.issuer
  | none => c.name ++ " — " ++ c.issuer

/-- C9: every certificate renders, in array order, as
"Name — Issuer (Year)" when the year is present and non-blank and
"Name — Issuer" otherwise (on sanitized input, whose year fields are
trimmed, the code's truthiness test coincides with the claim's
present-and-non-blank test), with one small spacing op between
consecutive certificate lines and none after the last. -/
theorem c9_certificate_lines :
    (∀ (E : Engine) (data : ResumeData) (d : Doc),
       data.certificates.isEmpty = false →
       (generateCertificates E data d).ops =
         (addSectionHeader E "CERTIFICATES" (checkPageBreak d)).ops ++
           List.intersperse (Op.down 30) (data.certificates.map certTextOp)) ∧
    (∀ c : Certificate, (∀ y, c.year = some y → jsTrim y = y) →
       certLine c = certLineSpec c) := by
  constructor
  · intro E data d h
    unfold generateCertificates
    rw [if_neg (by simp [h])]
    exact certLoop_ops E data.certificates.length data.certificates 0 _
      (by omega)
      (by cases hc : data.certificates with
          | nil => rw [hc] at h; simp at h
          | cons a t => simp)
  · intro c h
    unfold certLine certLineSpec
    cases hy : c.year with
    | none => simp [jsTruthy]
    | some y =>
        have hTrim := h y hy
        simp [jsTruthy, hTrim]

/-- C9 witness: the two-certificate record renders with exactly one
spacing op between its two lines, and the line of a trimmed-year
certificate agrees with the claim's formulation. -/
theorem c9_certificate_lines_witness :
    (generateCertificates E0 recCerts initialDoc).ops =
      (addSectionHeader E0 "CERTIFICATES" (checkPageBreak initialDoc)).ops ++
        List.intersperse (Op.down 30) (recCerts.certificates.map certTextOp) ∧
    certLine { name := "AWS Solutions Architect", issuer := "Amazon",
               year := some "2022" } =
      certLineSpec { name := "AWS Solutions Architect", issuer := "Amazon",
                     year := some "2022" } :=
  ⟨c9_certificate_lines.1 E0 recCerts initialDoc (by decide),
   c9_certificate_lines.2
     { name := "AWS Solutions Architect", issuer := "Amazon",
       year := some "2022" }
     (by intro y hy; injection hy with hpq; rw [← hpq]; decide)⟩

/-- C10: with a photo present (whether or not its payload decodes) the
header's name, contact and link texts all use the reduced width
CONTENT_WIDTH - PHOTO_SIZE - PHOTO_GAP and the end-of-header
adjustment forces the cursor down to MARGINS.top + PHOTO_SIZE + 10pt
whenever it is still above that line; without a photo the full content
width is used and the adjustment is the identity. -/
theorem c10_header_photo_layout :
    ∀ (E : Engine) (data : ResumeData) (d : Doc),
    (data.photo = none →
       photoBottomAdjust data d = d ∧ headerTextWidth data = CONTENT_WIDTH) ∧
    (∀ p : String, data.photo = some p → p ≠ "" →
       headerTextWidth data = CONTENT_WIDTH - PHOTO_SIZE - PHOTO_GAP ∧
       (photoBottomAdjust data d).y =
         max d.y (MARGINS.top + PHOTO_SIZE + 1000)) ∧
    generateHeader E data d =
      (photoBottomAdjust data (headerContent E data d)).moveDown E 150 ∧
    textWidths (generateHeader E data d).ops =
      textWidths d.ops ++
        List.replicate (2 + data.links.length)
          (some (headerTextWidth data)) := by
  intro E data d
  refine ⟨?_, ?_, rfl, textWidths_generateHeader E data d⟩
  · intro h
    exact ⟨by simp [photoBottomAdjust, h, jsTruthy],
      by simp [headerTextWidth, h, jsTruthy]⟩
  · intro p hp hne
    have hpe : p.isEmpty = false := by
      cases he : p.isEmpty
      · rfl
      · exact absurd ((String.isEmpty_iff p).mp he) hne
    have ht : jsTruthy data.photo = true := by simp [jsTruthy, hp, hpe]
    refine ⟨by simp [headerTextWidth, ht], ?_⟩
    simp only [photoBottomAdjust, ht, if_true]
    split
    · next hlt => simp; omega
    · next hge => simp; omega

/-- C10 witness: at the fresh document the photo record's adjustment
lands at the photo bottom, the no-photo record's adjustment is the
identity, and the photo record's header emits its two text blocks at
the reduced width. -/
theorem c10_header_photo_layout_witness :
    (photoBottomAdjust recPhoto initialDoc).y =
      max initialDoc.y (MARGINS.top + PHOTO_SIZE + 1000) ∧
    photoBottomAdjust baseRec initialDoc = initialDoc ∧
    textWidths (generateHeader E0 recPhoto initialDoc).ops =
      textWidths initialDoc.ops ++
        List.replicate (2 + recPhoto.links.length)
          (some (headerTextWidth recPhoto)) :=
  ⟨((c10_header_photo_layout E0 recPhoto initialDoc).2.1
      "data:image/png;base64,iVBORw0KGgo=" rfl (by decide)).2,
   ((c10_header_photo_layout E0 baseRec initialDoc).1 rfl).1,
   (c10_header_photo_layout E0 recPhoto initialDoc).2.2.2⟩

end ResumeGen
